import Mathlib

/-!
Shallow embedding of the go-lmsensors mapping/aggregation layer
(src/lmsensors.go, src/errors.go, src/bus/type.go) in Lean 4.

The backend (libsensors) is external: its answers are supplied as data.
A chip is a record of its raw name fields plus the list of features the
backend enumerates for it; a feature carries the backend's label answer,
its raw name, its type tag and the list of its subfeatures; a subfeature
carries its type tag together with the status code and value that
sensors_get_value would produce for its slot.  Machine floats are
modelled as rationals; Go maps are modelled as insertion lists read
through a last-insert-wins lookup.
-/

namespace Lmsensors

/-- LmSensorType constants from src/lmsensors.go (uint32 values). -/
abbrev LmSensorType := Nat

def Voltage : LmSensorType := 0x00
def Fan : LmSensorType := 0x01
def Temperature : LmSensorType := 0x02
def Power : LmSensorType := 0x03
def Energy : LmSensorType := 0x04
def Current : LmSensorType := 0x05
def Humidity : LmSensorType := 0x06
def VID : LmSensorType := 0x10
def Intrusion : LmSensorType := 0x11
def BeepEnable : LmSensorType := 0x18

/-- LmTempType constant Unknown = math.MaxInt32 from src/lmsensors.go. -/
def UnknownTempType : Int := 2147483647

namespace sf

/-- Modelled from the spec: the subfeature constant package
(go-lmsensors/subfeature) is not under src; the spec describes a
"type-classifying subfeature" for temperature and a "beep enabled"
subfeature for intrusion.  The numeric values follow the backend's
subfeature enumeration; only their distinctness matters here. -/
def TEMP_TYPE : Nat := 0x285

/-- Modelled from the spec: the intrusion "beep enabled" subfeature tag
from the backend's enumeration (the subfeature package is not under src). -/
def INTRUSION_BEEP : Nat := 0x1181

/-- Modelled from the spec: the intrusion alarm subfeature tag from the
backend's enumeration (the subfeature package is not under src). -/
def INTRUSION_ALARM : Nat := 0x1180

end sf

/-- SensorErrCode from src/errors.go: an int32 status code. -/
abbrev SensorErrCode := Int

/-- ErrSensorWildcards = -SENSORS_ERR_WILDCARDS (the header defines
SENSORS_ERR_WILDCARDS = 1). -/
def ErrSensorWildcards : SensorErrCode := -1

/-- ErrSensorChipName = -SENSORS_ERR_CHIP_NAME (the header defines
SENSORS_ERR_CHIP_NAME = 6). -/
def ErrSensorChipName : SensorErrCode := -6

/-- ErrSensorAny = math.MaxInt32, the wildcard error code from
src/errors.go. -/
def ErrSensorAny : SensorErrCode := 2147483647

/-- Embedding of struct sensorErr from src/errors.go: the originating
subfeature tag and the raw backend status code. -/
structure sensorErr where
  sub : Nat
  cerr : Int
deriving DecidableEq, Repr

/-- ErrSubFeatureNotExist = sensorErr{} (the zero value) from src/errors.go. -/
def ErrSubFeatureNotExist : sensorErr := { sub := 0, cerr := 0 }

/-- Targets that sensorErr.Is can match against: a SensorErrCode, a
subfeature tag, or another sensorErr (the three cases of the type switch
in src/errors.go). -/
inductive ErrTarget where
  | code (c : SensorErrCode)
  | subf (t : Nat)
  | serr (e : sensorErr)
deriving DecidableEq

/-- Embedding of sensorErr.Is from src/errors.go. -/
def sensorErr.Is (s : sensorErr) : ErrTarget → Bool
  | .code c => if c = ErrSensorAny then true else decide (c = s.cerr)
  | .subf t => decide (t = s.sub)
  | .serr e => decide (s = e)

instance {ε α : Type} [DecidableEq ε] [DecidableEq α] : DecidableEq (Except ε α) :=
  fun a b =>
    match a, b with
    | .error e1, .error e2 =>
      if h : e1 = e2 then isTrue (by rw [h]) else isFalse (fun hc => h (Except.error.inj hc))
    | .ok v1, .ok v2 =>
      if h : v1 = v2 then isTrue (by rw [h]) else isFalse (fun hc => h (Except.ok.inj hc))
    | .error _, .ok _ => isFalse (fun hc => Except.noConfusion hc)
    | .ok _, .error _ => isFalse (fun hc => Except.noConfusion hc)

/-- One subfeature as the backend presents it: its type tag, and the
status code and value that sensors_get_value yields on its slot
(cerr = 0 means the read succeeds with value val). -/
structure SubfeatureData where
  tag : Nat
  cerr : Int
  val : ℚ
deriving DecidableEq, Repr

/-- One feature as the backend presents it: raw name, the answer of
sensors_get_label (none models a NULL result), the feature type tag, and
its subfeatures in backend order. -/
structure FeatureData where
  name : String
  label : Option String
  ftype : LmSensorType
  subfeatures : List SubfeatureData
deriving DecidableEq, Repr

/-- Embedding of Feature.Label from src/lmsensors.go: a NULL answer from
sensors_get_label becomes the empty string, otherwise the answer is
returned as is. -/
def Feature.Label (f : FeatureData) : String :=
  match f.label with
  | none => ""
  | some s => s

/-- Embedding of Feature.getValue from src/lmsensors.go: a nonzero
status code from sensors_get_value becomes a sensorErr carrying the
subfeature tag and the code, otherwise the value is returned. -/
def Feature.getValue (s : SubfeatureData) : Except sensorErr ℚ :=
  if s.cerr ≠ 0 then .error { sub := s.tag, cerr := s.cerr } else .ok s.val

/-- Embedding of Feature.GetValue from src/lmsensors.go:
sensors_get_subfeature finds the subfeature with the requested type tag;
a NULL answer becomes ErrSubFeatureNotExist. -/
def Feature.GetValue (f : FeatureData) (sub : Nat) : Except sensorErr ℚ :=
  match f.subfeatures.find? (fun s => s.tag == sub) with
  | none => .error ErrSubFeatureNotExist
  | some s => Feature.getValue s

/-- Embedding of Feature.FirstValue from src/lmsensors.go: the first
call to sensors_get_all_subfeatures yields the first subfeature (NULL
when there is none, which becomes ErrSubFeatureNotExist), and its value
is read; no further subfeature is consulted. -/
def Feature.FirstValue (f : FeatureData) : Except sensorErr (Nat × ℚ) :=
  match f.subfeatures with
  | [] => .error ErrSubFeatureNotExist
  | s :: _ =>
    match Feature.getValue s with
    | .error e => .error e
    | .ok v => .ok (s.tag, v)

/-- Truncation of a rational toward zero, the Go float64-to-int
conversion used for LmTempType(value). -/
def ratTrunc (q : ℚ) : Int := q.num / (q.den : Int)

/-- The closed Sensor variants from src/lmsensors.go (TempSensor,
VoltageSensor, FanSensor, CurrentSensor, IntrusionSensor,
UnimplementedSensor).  Numeric variants carry the baseSensor fields
(name and value); TempSensor adds the temperature type; IntrusionSensor
carries name, beep flag and the unexported alarm flag, in declaration
order; UnimplementedSensor embeds the whole feature. -/
inductive Sensor where
  | TempSensor (name : String) (value : ℚ) (tempType : Int)
  | VoltageSensor (name : String) (value : ℚ)
  | FanSensor (name : String) (value : ℚ)
  | CurrentSensor (name : String) (value : ℚ)
  | IntrusionSensor (name : String) (beep : Bool) (alarm : Bool)
  | UnimplementedSensor (feat : FeatureData)
deriving DecidableEq, Repr

/-- Embedding of the GetName methods: every variant returns its stored
name except UnimplementedSensor, whose GetName returns the embedded
feature's raw backend name (s.Name() in src/lmsensors.go). -/
def Sensor.getName : Sensor → String
  | .TempSensor n _ _ => n
  | .VoltageSensor n _ => n
  | .FanSensor n _ => n
  | .CurrentSensor n _ => n
  | .IntrusionSensor n _ _ => n
  | .UnimplementedSensor f => f.name

/-- The numeric value a sensor variant carries, when it carries one. -/
def Sensor.numericValue : Sensor → Option ℚ
  | .TempSensor _ v _ => some v
  | .VoltageSensor _ v => some v
  | .FanSensor _ v => some v
  | .CurrentSensor _ v => some v
  | .IntrusionSensor _ _ _ => none
  | .UnimplementedSensor _ => none

/-- Whether a sensor is the UnimplementedSensor variant. -/
def Sensor.isUnimplemented : Sensor → Bool
  | .UnimplementedSensor _ => true
  | _ => false

/-- Embedding of Feature.Sensor from src/lmsensors.go.  The label is
resolved, then the primary value is read with FirstValue (its failure
aborts classification for every type tag); the switch on the type tag
then builds the variant.  In the Temperature arm a secondary TEMP_TYPE
read sets the temperature type, defaulting to Unknown.  In the Intrusion
arm the source builds an IntrusionSensor from the primary value and a
secondary INTRUSION_BEEP read, but never assigns it to the named return
value reading, so the arm yields no sensor and no error.  The default
arm wraps the feature as UnimplementedSensor. -/
def Feature.Sensor (f : FeatureData) : Option Sensor × Option sensorErr :=
  let name := Feature.Label f
  match Feature.FirstValue f with
  | .error e => (none, some e)
  | .ok (_, v) =>
    if f.ftype = Temperature then
      let tt : Int :=
        match Feature.GetValue f sf.TEMP_TYPE with
        | .ok tv => ratTrunc tv
        | .error _ => UnknownTempType
      (some (.TempSensor name v tt), none)
    else if f.ftype = Voltage then
      (some (.VoltageSensor name v), none)
    else if f.ftype = Fan then
      (some (.FanSensor name v), none)
    else if f.ftype = Current then
      (some (.CurrentSensor name v), none)
    else if f.ftype = Intrusion then
      (none, none)
    else
      (some (.UnimplementedSensor f), none)

/-- Round the fraction n / d (with d positive) to the nearest integer
with ties to even, the rounding used by Go's strconv.FormatFloat when
trimming decimal digits.  Written on numerator and denominator so that
it evaluates by integer arithmetic alone. -/
def roundHalfEvenND (n d : Int) : Int :=
  let f := Int.fdiv n d
  let r := n - f * d
  if 2 * r < d then f
  else if d < 2 * r then f + 1
  else if f % 2 = 0 then f else f + 1

/-- Left pad a decimal rendering of a natural number with zeros to the
requested width. -/
def padZeros (w : Nat) (m : Nat) : String :=
  let s := toString m
  String.mk (List.replicate (w - s.length) '0') ++ s

/-- Embedding of strconv.FormatFloat(v, 'f', prec, 64): fixed-point
decimal with exactly prec fraction digits, correctly rounded; the sign
comes from the value's sign (num is negative exactly when the rational
is).  The value q times 10 to the prec is the fraction with numerator
q.num times 10 to the prec over q.den. -/
def formatFixed (q : ℚ) (prec : Nat) : String :=
  let n := roundHalfEvenND (q.num * (10 : Int) ^ prec) (q.den : Int)
  let sign := if q.num < 0 then "-" else ""
  let a := n.natAbs
  if prec = 0 then sign ++ toString a
  else sign ++ toString (a / 10 ^ prec) ++ "." ++ padZeros prec (a % 10 ^ prec)

/-- Embedding of strconv.FormatBool. -/
def formatBool (b : Bool) : String := if b then "true" else "false"

/-- The Rendered methods from src/lmsensors.go: temperature and fan
format the value with 0 fraction digits, voltage and current with 2,
intrusion renders its beep flag as boolean text, unimplemented renders a
fixed placeholder. -/
def Sensor.Rendered : Sensor → String
  | .TempSensor _ v _ => formatFixed v 0
  | .VoltageSensor _ v => formatFixed v 2
  | .FanSensor _ v => formatFixed v 0
  | .CurrentSensor _ v => formatFixed v 2
  | .IntrusionSensor _ beep _ => formatBool beep
  | .UnimplementedSensor _ => "0.00"

/-- The Unit methods from src/lmsensors.go. -/
def Sensor.unit : Sensor → String
  | .TempSensor _ _ _ => "°C"
  | .VoltageSensor _ _ => "V"
  | .FanSensor _ _ => "min⁻¹"
  | .CurrentSensor _ _ => "A"
  | .IntrusionSensor _ _ _ => ""
  | .UnimplementedSensor _ => "TODO"

/-- The Alarm methods from src/lmsensors.go: false everywhere except
for IntrusionSensor, which returns its unexported alarm field. -/
def Sensor.alarm : Sensor → Bool
  | .IntrusionSensor _ _ a => a
  | _ => false

/-!
Go maps.  A map is modelled as the list of its insertions, newest in
front; lookup returns the newest binding of a key, so later insertions
overwrite earlier ones exactly as Go map assignment does.
-/

/-- Insertion m[k] = v into a Go map. -/
def goMapInsert {α : Type} (m : List (String × α)) (k : String) (v : α) :
    List (String × α) :=
  (k, v) :: m

/-- Lookup m[k] in a Go map (none when the key is absent). -/
def goMapGet {α : Type} (m : List (String × α)) (k : String) : Option α :=
  (m.find? (fun p => p.1 == k)).map Prod.snd

/-- Embedding of collectError from src/errors.go: the collected
(label, cause) pairs, nil when none were yielded.  The iterator argument
is already evaluated to the list of pairs it yields, since the for-range
inside collectError never stops early. -/
def collectError {ε : Type} (l : List (String × ε)) : Option (List (String × ε)) :=
  match l with
  | [] => none
  | _ => some l

/-!
Chip identity (src/lmsensors.go Name, Bus, addrfmt, Addr, hasNR,
hasWildcards; src/bus/type.go).
-/

namespace bus

/-- Bus type constants from src/bus/type.go (an int16 enum, and equal to
the SENSORS_BUS_TYPE_x constants of the backend header). -/
def ANY : Int := -1

def I2C : Int := 0

def ISA : Int := 1

def PCI : Int := 2

def SPI : Int := 3

def VIRTUAL : Int := 4

def ACPI : Int := 5

def HID : Int := 6

def MDIO : Int := 7

def SCSI : Int := 8

end bus

/-- SENSORS_BUS_NR_ANY from the backend header. -/
def SENSORS_BUS_NR_ANY : Int := -1

/-- SENSORS_CHIP_NAME_ADDR_ANY from the backend header. -/
def SENSORS_CHIP_NAME_ADDR_ANY : Int := -1

/-- Modelled from the spec: the stringer-generated bus.Type.String
method is not under src.  The family name of each enumerated constant is
its identifier from src/bus/type.go; out-of-range values render in the
stringer convention Type(N). -/
def busTypeStr (t : Int) : String :=
  if t = bus.ANY then "ANY"
  else if t = bus.I2C then "I2C"
  else if t = bus.ISA then "ISA"
  else if t = bus.PCI then "PCI"
  else if t = bus.SPI then "SPI"
  else if t = bus.VIRTUAL then "VIRTUAL"
  else if t = bus.ACPI then "ACPI"
  else if t = bus.HID then "HID"
  else if t = bus.MDIO then "MDIO"
  else if t = bus.SCSI then "SCSI"
  else "Type(" ++ toString t ++ ")"

/-- The raw sensors_chip_name fields a detected chip carries, plus the
backend's answers for it: the adapter name and the enumerated features.
prefixStr models the prefix field (none is a NULL prefix). -/
structure ChipData where
  prefixStr : Option String
  busType : Int
  busNr : Int
  addr : Int
  adapter : String
  features : List FeatureData
deriving Repr

/-- Embedding of ChipPtr.Prefix: C.GoString of the prefix field (the
empty string for NULL). -/
def ChipPtr.prefixGo (c : ChipData) : String :=
  match c.prefixStr with
  | none => ""
  | some s => s

/-- Embedding of ChipPtr.hasNR from src/lmsensors.go: true exactly for
the I2C, SPI, HID and SCSI bus types. -/
def ChipPtr.hasNR (t : Int) : Bool :=
  t == bus.I2C || t == bus.SPI || t == bus.HID || t == bus.SCSI

/-- ASCII lowercasing of a string, character by character: what
strings.ToLower does on the ASCII bus family names. -/
def strToLower (s : String) : String := String.mk (s.data.map Char.toLower)

/-- Embedding of ChipPtr.Bus from src/lmsensors.go: the lowercased bus
type name, with "-" and the decimal bus number appended when hasNR. -/
def ChipPtr.bus (c : ChipData) : String :=
  let b := strToLower (busTypeStr c.busType)
  if ChipPtr.hasNR c.busType then b ++ "-" ++ toString c.busNr else b

/-- Hex digits of a natural number, lowercase. -/
def natHex (n : Nat) : String := String.mk (Nat.toDigits 16 n)

/-- Embedding of fmt.Sprintf("%0wx", x) for an integer x: lowercase hex
zero-padded to total width w (a leading minus sign counts toward the
width, as in Go). -/
def goHexPad (w : Nat) (x : Int) : String :=
  if x < 0 then
    let s := natHex x.natAbs
    "-" ++ String.mk (List.replicate (w - 1 - s.length) '0') ++ s
  else
    let s := natHex x.toNat
    String.mk (List.replicate (w - s.length) '0') ++ s

/-- Embedding of ChipPtr.addrfmt from src/lmsensors.go, as the pad width
of the hex format it returns: 4 for ISA and PCI, 2 for I2C, none
otherwise. -/
def ChipPtr.addrfmt (t : Int) : Nat :=
  if t = bus.ISA ∨ t = bus.PCI then 4
  else if t = bus.I2C then 2
  else 0

/-- Embedding of ChipPtr.Addr from src/lmsensors.go. -/
def ChipPtr.addrStr (c : ChipData) : String :=
  goHexPad (ChipPtr.addrfmt c.busType) c.addr

/-- Embedding of ChipPtr.Name from src/lmsensors.go:
strings.Join([prefix, bus, addr], "-"). -/
def ChipPtr.chipName (c : ChipData) : String :=
  String.intercalate "-" [ChipPtr.prefixGo c, ChipPtr.bus c, ChipPtr.addrStr c]

/-- Embedding of ChipPtr.hasWildcards from src/lmsensors.go. -/
def ChipPtr.hasWildcards (c : ChipData) : Bool :=
  c.prefixStr.isNone || c.busType == bus.ANY || c.busNr == SENSORS_BUS_NR_ANY ||
    c.addr == SENSORS_CHIP_NAME_ADDR_ANY

/-- Embedding of the Chip struct from src/lmsensors.go (the Type field
is named chipType since Type is reserved in Lean). -/
structure ChipStruct where
  ID : String
  chipType : String
  busStr : String
  address : String
  adapter : String
  Sensors : List (String × Option Sensor)

/-- Embedding of ChipPtr.Chip from src/lmsensors.go.  Every enumerated
feature is classified; its reading (nil on failure, and nil for the
Intrusion arm) is inserted into the sensor map under the feature's label
unconditionally, before the error check; failures are collected as
("feature=" plus label, cause) pairs. -/
def ChipPtr.Chip (c : ChipData) : ChipStruct × Option (List (String × sensorErr)) :=
  ({ ID := ChipPtr.chipName c
     chipType := ChipPtr.prefixGo c
     busStr := ChipPtr.bus c
     address := ChipPtr.addrStr c
     adapter := c.adapter
     Sensors := c.features.foldl
       (fun m f => goMapInsert m (Feature.Label f) (Feature.Sensor f).1) [] },
   collectError (c.features.filterMap
     (fun f => ((Feature.Sensor f).2).map
       (fun e => ("feature=" ++ Feature.Label f, e)))))

/-- Embedding of Get from src/lmsensors.go.  The detected chips are the
input list; every chip's Chip struct is inserted into the system map
keyed by its ID unconditionally, and chips whose Chip call reported an
error contribute a ("chip=" plus ID, cause) pair to the aggregate. -/
def Get (chips : List ChipData) :
    List (String × ChipStruct) × Option (List (String × List (String × sensorErr))) :=
  (chips.foldl (fun m c => goMapInsert m (ChipPtr.Chip c).1.ID (ChipPtr.Chip c).1) [],
   collectError (chips.filterMap
     (fun c => ((ChipPtr.Chip c).2).map
       (fun e => ("chip=" ++ (ChipPtr.Chip c).1.ID, e)))))

/-- The raw fields sensors_parse_chip_name fills in (the backend parse
is external; its outcome is the input here). -/
structure ParsedChip where
  prefixStr : Option String
  busType : Int
  busNr : Int
  addr : Int
deriving DecidableEq, Repr

/-- hasNR read on a ParsedChip. -/
def ParsedChip.hasNR (c : ParsedChip) : Bool := ChipPtr.hasNR c.busType

/-- hasWildcards read on a ParsedChip. -/
def ParsedChip.hasWildcards (c : ParsedChip) : Bool :=
  c.prefixStr.isNone || c.busType == bus.ANY || c.busNr == SENSORS_BUS_NR_ANY ||
    c.addr == SENSORS_CHIP_NAME_ADDR_ANY

/-- Embedding of GetChip from src/lmsensors.go.  The backend's parse
outcome (error code or parsed fields) and the filesystem search of
searchSetPath (a map from prefix to resolved path) are external inputs.
A parse failure propagates its code; then the bus number is zeroed for
families without one; a remaining wildcard yields ErrSensorWildcards; a
missing path yields ErrSensorChipName; otherwise the handle and its path
are returned. -/
def GetChip (parsed : Except Int ParsedChip) (resolvePath : String → Option String) :
    Except Int (ParsedChip × String) :=
  match parsed with
  | .error cerr => .error cerr
  | .ok ch0 =>
    let ch := if ch0.hasNR then ch0 else { ch0 with busNr := 0 }
    if ch.hasWildcards then .error ErrSensorWildcards
    else
      match resolvePath (match ch.prefixStr with | none => "" | some s => s) with
      | none => .error ErrSensorChipName
      | some p => .ok (ch, p)

/-- Modelled from the spec: the canonical identity of claim C5, written
from the spec's words (prefix, dash, busPart, dash, addrPart; busPart
the lowercase family name with a "-N" suffix exactly for I2C, SPI, HID
and SCSI; addrPart hex padded to 4 digits for ISA and PCI, 2 for I2C,
unpadded otherwise), to be compared with the source-side
ChipPtr.chipName. -/
def specChipIdentity (c : ChipData) : String :=
  let familyLower :=
    if c.busType = bus.ANY then "any"
    else if c.busType = bus.I2C then "i2c"
    else if c.busType = bus.ISA then "isa"
    else if c.busType = bus.PCI then "pci"
    else if c.busType = bus.SPI then "spi"
    else if c.busType = bus.VIRTUAL then "virtual"
    else if c.busType = bus.ACPI then "acpi"
    else if c.busType = bus.HID then "hid"
    else if c.busType = bus.MDIO then "mdio"
    else "scsi"
  let busPart :=
    if c.busType = bus.I2C ∨ c.busType = bus.SPI ∨ c.busType = bus.HID ∨ c.busType = bus.SCSI
    then familyLower ++ "-" ++ toString c.busNr
    else familyLower
  let addrPart :=
    if c.busType = bus.ISA ∨ c.busType = bus.PCI then goHexPad 4 c.addr
    else if c.busType = bus.I2C then goHexPad 2 c.addr
    else goHexPad 0 c.addr
  ChipPtr.prefixGo c ++ "-" ++ busPart ++ "-" ++ addrPart

/-!
Concrete inputs used by the claim theorems below.
-/

/-- A feature whose first subfeature fails to read (status -4) while its
second subfeature reads successfully. -/
def c1Feature : FeatureData :=
  { name := "temp1", label := some "CPU Temp", ftype := Temperature,
    subfeatures := [{ tag := 1, cerr := -4, val := 0 }, { tag := 2, cerr := 0, val := 42 }] }

/-- A voltage feature with no subfeatures, whose classification fails. -/
def c2FailFeature : FeatureData :=
  { name := "in0", label := some "Vcore", ftype := Voltage, subfeatures := [] }

/-- A chip holding only the failing feature c2FailFeature. -/
def c2Chip : ChipData :=
  { prefixStr := some "nct6775", busType := bus.ISA, busNr := 0, addr := 656,
    adapter := "ISA adapter", features := [c2FailFeature] }

/-- A voltage feature with one readable subfeature. -/
def c2OkFeature : FeatureData :=
  { name := "in0", label := some "Vcore", ftype := Voltage,
    subfeatures := [{ tag := 0, cerr := 0, val := 1 }] }

/-- A chip holding only the readable feature c2OkFeature. -/
def c2OkChip : ChipData :=
  { prefixStr := some "nct6775", busType := bus.ISA, busNr := 0, addr := 656,
    adapter := "ISA adapter", features := [c2OkFeature] }

/-- An intrusion feature whose alarm subfeature reads successfully with
value 1 and whose beep subfeature reads successfully with value 0. -/
def c3Feature : FeatureData :=
  { name := "intrusion0", label := some "intrusion0", ftype := Intrusion,
    subfeatures := [{ tag := sf.INTRUSION_ALARM, cerr := 0, val := 1 },
                    { tag := sf.INTRUSION_BEEP, cerr := 0, val := 0 }] }

/-- A chip holding one readable voltage feature, for the sweep claim. -/
def c4Chip : ChipData :=
  { prefixStr := some "w83627hf", busType := bus.ISA, busNr := 0, addr := 0x290,
    adapter := "ISA adapter",
    features := [{ name := "in1", label := some "VIN1", ftype := Voltage,
                   subfeatures := [{ tag := 16, cerr := 0, val := 3 }] }] }

/-- An I2C chip with a concrete prefix, bus number and address. -/
def c5Chip : ChipData :=
  { prefixStr := some "tmp102", busType := bus.I2C, busNr := 1, addr := 0x48,
    adapter := "", features := [] }

/-- A feature with the unhandled Power type tag and no subfeatures. -/
def c6Feature : FeatureData :=
  { name := "power1", label := some "power1", ftype := Power, subfeatures := [] }

/-- A feature with the unhandled Power type tag and one readable
subfeature. -/
def c6OkFeature : FeatureData :=
  { name := "power1", label := some "power1", ftype := Power,
    subfeatures := [{ tag := 10, cerr := 0, val := 100 }] }

/-- A parsed chip name whose address component is the wildcard. -/
def c7WildChip : ParsedChip :=
  { prefixStr := some "w83627hf", busType := bus.ISA, busNr := 0,
    addr := SENSORS_CHIP_NAME_ADDR_ANY }

/-- A fully qualified parsed chip name. -/
def c7FullChip : ParsedChip :=
  { prefixStr := some "w83627hf", busType := bus.ISA, busNr := 0, addr := 0x290 }

/-- A feature whose label lookup finds nothing (NULL) although the
feature has a raw backend name and a readable subfeature. -/
def c8Feature : FeatureData :=
  { name := "temp1", label := none, ftype := Voltage,
    subfeatures := [{ tag := 0, cerr := 0, val := 12 }] }

/-- A fan feature with no subfeatures. -/
def c10Feature : FeatureData :=
  { name := "fan1", label := some "fan1", ftype := Fan, subfeatures := [] }

/-!
Helper lemmas about the Go map model.
-/

theorem goMapGet_insert {α : Type} (m : List (String × α)) (k k2 : String) (v : α) :
    goMapGet (goMapInsert m k v) k2 = if k = k2 then some v else goMapGet m k2 := by
  simp only [goMapGet, goMapInsert, List.find?]
  by_cases h : k = k2
  · simp [h]
  · rw [show (k == k2) = false from by simp [h]]
    simp [h, goMapGet]

theorem goMapGet_foldl {α β : Type} (key : β → String) (val : β → α) :
    ∀ (l : List β) (m0 : List (String × α)) (k : String) (v : α),
      goMapGet (l.foldl (fun m x => goMapInsert m (key x) (val x)) m0) k = some v →
      (∃ x ∈ l, key x = k ∧ val x = v) ∨ goMapGet m0 k = some v := by
  intro l
  induction l with
  | nil => exact fun m0 k v h => Or.inr h
  | cons x xs ih =>
    intro m0 k v h
    rw [List.foldl_cons] at h
    rcases ih _ k v h with h1 | h2
    · obtain ⟨y, hy, hk, hv⟩ := h1
      exact Or.inl ⟨y, List.mem_cons_of_mem _ hy, hk, hv⟩
    · rw [goMapGet_insert] at h2
      by_cases hkk : key x = k
      · refine Or.inl ⟨x, List.mem_cons_self x xs, hkk, ?_⟩
        simpa [hkk] using h2
      · right
        simpa [hkk] using h2

theorem goMapGet_foldl_of_not_mem {α β : Type} (key : β → String) (val : β → α) :
    ∀ (l : List β) (m0 : List (String × α)) (k : String), (∀ x ∈ l, key x ≠ k) →
      goMapGet (l.foldl (fun m x => goMapInsert m (key x) (val x)) m0) k = goMapGet m0 k := by
  intro l
  induction l with
  | nil => exact fun m0 k _ => rfl
  | cons x xs ih =>
    intro m0 k hk
    rw [List.foldl_cons, ih _ k (fun y hy => hk y (List.mem_cons_of_mem _ hy)),
      goMapGet_insert]
    simp [hk x (List.mem_cons_self x xs)]

theorem goMapGet_foldl_nodup {α β : Type} (key : β → String) (val : β → α) :
    ∀ (l : List β) (m0 : List (String × α)), (l.map key).Nodup →
      ∀ x ∈ l, goMapGet (l.foldl (fun m y => goMapInsert m (key y) (val y)) m0) (key x) =
        some (val x) := by
  intro l
  induction l with
  | nil => intro m0 _ x hx; cases hx
  | cons y ys ih =>
    intro m0 hnd x hx
    rw [List.map_cons, List.nodup_cons] at hnd
    rcases List.mem_cons.mp hx with rfl | hxs
    · rw [List.foldl_cons,
        goMapGet_foldl_of_not_mem key val ys _ (key x)
          (fun z hz hzk => hnd.1 (hzk ▸ List.mem_map_of_mem key hz)),
        goMapGet_insert]
      simp
    · rw [List.foldl_cons]
      exact ih _ hnd.2 x hxs

/-!
Helper lemmas about classification.
-/

theorem collectError_eq_none {ε : Type} (l : List (String × ε)) :
    collectError l = none ↔ l = [] := by
  cases l <;> simp [collectError]

theorem firstValue_ok (f : FeatureData) (t : Nat) (v : ℚ)
    (h : Feature.FirstValue f = .ok (t, v)) :
    ∃ sub ∈ f.subfeatures, sub.tag = t ∧ sub.cerr = 0 ∧ sub.val = v := by
  rcases hfs : f.subfeatures with _ | ⟨s0, rest⟩
  · simp [Feature.FirstValue, hfs] at h
  · simp only [Feature.FirstValue, Feature.getValue, hfs] at h
    by_cases hc : s0.cerr = 0
    · simp only [hc, ne_eq, not_true_eq_false, ite_false, if_false] at h
      simp only [Except.ok.injEq, Prod.mk.injEq] at h
      exact ⟨s0, List.mem_cons_self s0 rest, h.1, hc, h.2⟩
    · simp [hc] at h

theorem sensor_some_props (f : FeatureData) (s : Sensor)
    (h : (Feature.Sensor f).1 = some s) :
    (Feature.Sensor f).2 = none ∧
    ∀ v, s.numericValue = some v → ∃ sub ∈ f.subfeatures, sub.cerr = 0 ∧ sub.val = v := by
  rcases hfv : Feature.FirstValue f with e | ⟨t, v0⟩
  · simp [Feature.Sensor, hfv] at h
  · have hsub : ∃ sub ∈ f.subfeatures, sub.cerr = 0 ∧ sub.val = v0 := by
      obtain ⟨sub, hmem, _, hc, hv⟩ := firstValue_ok f t v0 hfv
      exact ⟨sub, hmem, hc, hv⟩
    simp only [Feature.Sensor, hfv] at h ⊢
    split_ifs at h ⊢ with hT hV hF hC hI
    · simp only [Option.some.injEq] at h
      subst h
      exact ⟨rfl, fun v hv => by
        simp only [Sensor.numericValue, Option.some.injEq] at hv
        exact hv ▸ hsub⟩
    · simp only [Option.some.injEq] at h
      subst h
      exact ⟨rfl, fun v hv => by
        simp only [Sensor.numericValue, Option.some.injEq] at hv
        exact hv ▸ hsub⟩
    · simp only [Option.some.injEq] at h
      subst h
      exact ⟨rfl, fun v hv => by
        simp only [Sensor.numericValue, Option.some.injEq] at hv
        exact hv ▸ hsub⟩
    · simp only [Option.some.injEq] at h
      subst h
      exact ⟨rfl, fun v hv => by
        simp only [Sensor.numericValue, Option.some.injEq] at hv
        exact hv ▸ hsub⟩
    · simp only [Option.some.injEq] at h
      subst h
      exact ⟨rfl, fun v hv => by simp [Sensor.numericValue] at hv⟩

/-!
Claim theorems.
-/

/-- C1 counterexample: on a feature whose first subfeature fails to read
while its second reads successfully, FirstValue does not return the
value of the first successfully reading subfeature; it propagates the
first subfeature's read error, so classification fails although a
subfeature of the feature reads successfully. -/
theorem c1_counterexample :
    Feature.FirstValue c1Feature = .error { sub := 1, cerr := -4 } ∧
    c1Feature.subfeatures.any (fun s => s.cerr == 0) = true := by decide

/-- C1 amended: the primary value is determined from the first
subfeature in backend-defined order alone: with no subfeatures,
FirstValue fails with ErrSubFeatureNotExist; otherwise it returns the
first subfeature's value when that read succeeds and propagates that
subfeature's read error when it fails, never consulting any later
subfeature. -/
theorem c1_firstvalue_reads_first_subfeature (f : FeatureData) :
    (f.subfeatures = [] → Feature.FirstValue f = .error ErrSubFeatureNotExist) ∧
    ∀ s rest, f.subfeatures = s :: rest →
      (s.cerr = 0 → Feature.FirstValue f = .ok (s.tag, s.val)) ∧
      (s.cerr ≠ 0 → Feature.FirstValue f = .error { sub := s.tag, cerr := s.cerr }) := by
  refine ⟨fun h => by simp [Feature.FirstValue, h], fun s rest h => ⟨fun hc => ?_, fun hc => ?_⟩⟩
  · simp [Feature.FirstValue, h, Feature.getValue, hc]
  · simp [Feature.FirstValue, h, Feature.getValue, hc]

/-- C1 witness: on the concrete feature c1Feature the first subfeature
fails with status -4 and FirstValue propagates exactly that error. -/
theorem c1_firstvalue_reads_first_subfeature_witness :
    c1Feature.subfeatures =
      ({ tag := 1, cerr := -4, val := 0 } : SubfeatureData) ::
        [{ tag := 2, cerr := 0, val := 42 }] ∧
    Feature.FirstValue c1Feature = .error { sub := 1, cerr := -4 } :=
  ⟨rfl, ((c1_firstvalue_reads_first_subfeature c1Feature).2
    { tag := 1, cerr := -4, val := 0 } [{ tag := 2, cerr := 0, val := 42 }] rfl).2
    (by decide)⟩

/-- C3 failing input: an intrusion feature whose primary (alarm) value
reads successfully with value 1.  The type switch enters the Intrusion
arm, but the IntrusionSensor the source builds there is never assigned
to the named return value, so classification yields no sensor at all
(and no error), contradicting the claim that an Intrusion sensor with
the computed alarm and beep flags is returned. -/
theorem c3_intrusion_yields_no_sensor :
    c3Feature.ftype = Intrusion ∧
    Feature.FirstValue c3Feature = .ok (sf.INTRUSION_ALARM, 1) ∧
    Feature.Sensor c3Feature = (none, none) := by decide

/-- C10: a feature with zero subfeatures fails FirstValue with
ErrSubFeatureNotExist, an explicit GetValue of a subfeature type absent
from the feature fails with ErrSubFeatureNotExist, that error's status
code and subfeature tag are both zero, and it matches the wildcard code
ErrSensorAny under sensorErr.Is. -/
theorem c10_missing_subfeature_error (f : FeatureData) (sub : Nat) :
    (f.subfeatures = [] → Feature.FirstValue f = .error ErrSubFeatureNotExist) ∧
    ((∀ s ∈ f.subfeatures, s.tag ≠ sub) →
      Feature.GetValue f sub = .error ErrSubFeatureNotExist) ∧
    ErrSubFeatureNotExist.cerr = 0 ∧ ErrSubFeatureNotExist.sub = 0 ∧
    sensorErr.Is ErrSubFeatureNotExist (.code ErrSensorAny) = true := by
  refine ⟨fun h => by simp [Feature.FirstValue, h], fun h => ?_, rfl, rfl, by decide⟩
  unfold Feature.GetValue
  rw [List.find?_eq_none.mpr (fun x hx => by simpa using h x hx)]

/-- C10 witness: the fan feature c10Feature has no subfeatures, so both
FirstValue and an explicit GetValue of subfeature type 9 fail with
ErrSubFeatureNotExist, which matches ErrSensorAny. -/
theorem c10_missing_subfeature_error_witness :
    Feature.FirstValue c10Feature = .error ErrSubFeatureNotExist ∧
    Feature.GetValue c10Feature 9 = .error ErrSubFeatureNotExist ∧
    sensorErr.Is ErrSubFeatureNotExist (.code ErrSensorAny) = true :=
  ⟨(c10_missing_subfeature_error c10Feature 9).1 rfl,
   (c10_missing_subfeature_error c10Feature 9).2.1 (by decide),
   (c10_missing_subfeature_error c10Feature 9).2.2.2.2⟩

/-- C6 counterexample: a feature whose type tag Power is none of the
handled variants, but which has no subfeatures, is not classified as an
Unimplemented sensor; classification fails with ErrSubFeatureNotExist,
because the primary-value read precedes the type dispatch for every
type tag. -/
theorem c6_counterexample :
    c6Feature.ftype = Power ∧
    (Power ≠ Temperature ∧ Power ≠ Voltage ∧ Power ≠ Fan ∧ Power ≠ Current ∧
      Power ≠ Intrusion) ∧
    Feature.Sensor c6Feature = (none, some ErrSubFeatureNotExist) := by decide

/-- C6 amended: for a feature whose type tag is not one of the handled
variants, classification returns an Unimplemented sensor carrying the
feature (and its raw tag) whenever the primary value reads successfully,
and fails with exactly the primary-value error otherwise; the
Unimplemented branch itself introduces no failure. -/
theorem c6_unhandled_tag_dispatch (f : FeatureData)
    (h : f.ftype ≠ Temperature ∧ f.ftype ≠ Voltage ∧ f.ftype ≠ Fan ∧
      f.ftype ≠ Current ∧ f.ftype ≠ Intrusion) :
    (∀ t v, Feature.FirstValue f = .ok (t, v) →
      Feature.Sensor f = (some (.UnimplementedSensor f), none)) ∧
    ∀ e, Feature.FirstValue f = .error e → Feature.Sensor f = (none, some e) := by
  obtain ⟨h1, h2, h3, h4, h5⟩ := h
  constructor
  · intro t v hfv
    simp [Feature.Sensor, hfv, h1, h2, h3, h4, h5]
  · intro e hfv
    simp [Feature.Sensor, hfv]

/-- C6 witness: the Power-tagged feature c6OkFeature has a readable
subfeature, so its classification yields the Unimplemented sensor with
no error. -/
theorem c6_unhandled_tag_dispatch_witness :
    (c6OkFeature.ftype ≠ Temperature ∧ c6OkFeature.ftype ≠ Voltage ∧
      c6OkFeature.ftype ≠ Fan ∧ c6OkFeature.ftype ≠ Current ∧
      c6OkFeature.ftype ≠ Intrusion) ∧
    Feature.Sensor c6OkFeature = (some (.UnimplementedSensor c6OkFeature), none) :=
  ⟨by decide,
   (c6_unhandled_tag_dispatch c6OkFeature (by decide)).1 10 100 (by decide)⟩

/-- C8 counterexample: a feature whose backend label lookup finds
nothing is classified with the empty string as its name, although its
raw backend name is "temp1"; the name does not fall back to the raw
name. -/
theorem c8_counterexample :
    Feature.Label c8Feature = "" ∧ c8Feature.name = "temp1" ∧
    (Feature.Sensor c8Feature).1 = some (.VoltageSensor "" 12) ∧
    Sensor.getName (.VoltageSensor "" 12) ≠ c8Feature.name := by decide

/-- C8 amended: the name of every classified sensor is exactly the
backend label lookup result (with a NULL lookup mapped to the empty
string, and no fallback), except that an Unimplemented sensor reports
the feature's raw backend name through GetName. -/
theorem c8_sensor_name (f : FeatureData) (s : Sensor)
    (h : (Feature.Sensor f).1 = some s) :
    Sensor.getName s = if s.isUnimplemented then f.name else Feature.Label f := by
  rcases hfv : Feature.FirstValue f with e | ⟨t, v0⟩
  · simp [Feature.Sensor, hfv] at h
  · simp only [Feature.Sensor, hfv] at h
    split_ifs at h with hT hV hF hC hI <;>
      simp only [Option.some.injEq] at h <;> subst h <;>
      simp [Sensor.getName, Sensor.isUnimplemented]

/-- C8 witness: the classified sensor of c8Feature is a numeric variant
whose name equals the (empty) label lookup result. -/
theorem c8_sensor_name_witness :
    (Feature.Sensor c8Feature).1 = some (.VoltageSensor "" 12) ∧
    Sensor.getName (.VoltageSensor "" 12) =
      if (Sensor.VoltageSensor "" 12).isUnimplemented then c8Feature.name
      else Feature.Label c8Feature :=
  ⟨by decide, c8_sensor_name c8Feature (.VoltageSensor "" 12) (by decide)⟩

/-- C9 counterexample: a Temperature sensor with value 36.7 renders as
"37", not "36": strconv.FormatFloat with zero fraction digits rounds to
the nearest integer instead of truncating. -/
theorem c9_counterexample :
    Sensor.Rendered (.TempSensor "CPU Temp" 36.7 UnknownTempType) = "37" ∧
    "37" ≠ "36" := by
  have h : (36.7 : ℚ) = Rat.mk' 367 10 (by norm_num) (by norm_num) := by
    rw [Rat.mk'_eq_divInt, Rat.divInt_eq_div]; norm_num
  refine ⟨?_, by decide⟩
  rw [show Sensor.Rendered (.TempSensor "CPU Temp" 36.7 UnknownTempType) =
    formatFixed 36.7 0 from rfl, h]
  decide

/-- C9 amended: value 36.7 on a Temperature sensor renders "37" with
unit "°C"; value 12.034 on a Voltage sensor renders "12.03" with unit
"V"; an Intrusion sensor with alarm true and beep false has Rendered
"false" and Alarm true. -/
theorem c9_rendering_exactness :
    Sensor.Rendered (.TempSensor "t" 36.7 UnknownTempType) = "37" ∧
    Sensor.unit (.TempSensor "t" 36.7 UnknownTempType) = "°C" ∧
    Sensor.Rendered (.VoltageSensor "v" 12.034) = "12.03" ∧
    Sensor.unit (.VoltageSensor "v" 12.034) = "V" ∧
    Sensor.Rendered (.IntrusionSensor "i" false true) = "false" ∧
    Sensor.alarm (.IntrusionSensor "i" false true) = true := by
  have h1 : (36.7 : ℚ) = Rat.mk' 367 10 (by norm_num) (by norm_num) := by
    rw [Rat.mk'_eq_divInt, Rat.divInt_eq_div]; norm_num
  have h2 : (12.034 : ℚ) = Rat.mk' 6017 500 (by norm_num) (by norm_num) := by
    rw [Rat.mk'_eq_divInt, Rat.divInt_eq_div]; norm_num
  refine ⟨?_, by decide, ?_, by decide, by decide, by decide⟩
  · rw [show Sensor.Rendered (.TempSensor "t" 36.7 UnknownTempType) =
      formatFixed 36.7 0 from rfl, h1]
    decide
  · rw [show Sensor.Rendered (.VoltageSensor "v" 12.034) =
      formatFixed 12.034 2 from rfl, h2]
    decide

/-- C2 counterexample: a feature whose classification fails does
contribute an entry to the chip's sensor map: the map insert happens
before the error check, so the failing feature's label maps to a nil
reading. -/
theorem c2_counterexample :
    (Feature.Sensor c2FailFeature).2 = some ErrSubFeatureNotExist ∧
    goMapGet (ChipPtr.Chip c2Chip).1.Sensors "Vcore" = some none ∧
    (ChipPtr.Chip c2Chip).2 ≠ none := by decide

/-- C2 amended: every non-nil entry of a chip's sensor map is the
sensor of a successfully classified feature with that label, and every
numeric-variant sensor among them carries the successfully read value
of one of its feature's subfeatures; a feature whose classification
fails still contributes an entry, but a nil one. -/
theorem c2_sensor_map_entries (c : ChipData) (lbl : String) (s : Sensor)
    (h : goMapGet (ChipPtr.Chip c).1.Sensors lbl = some (some s)) :
    ∃ f ∈ c.features, Feature.Label f = lbl ∧ (Feature.Sensor f).1 = some s ∧
      (Feature.Sensor f).2 = none ∧
      ∀ v, s.numericValue = some v → ∃ sub ∈ f.subfeatures, sub.cerr = 0 ∧ sub.val = v := by
  have h0 := goMapGet_foldl Feature.Label (fun f => (Feature.Sensor f).1)
    c.features [] lbl (some s) h
  rcases h0 with ⟨f, hf, hlbl, hval⟩ | hnil
  · obtain ⟨he, hnum⟩ := sensor_some_props f s hval
    exact ⟨f, hf, hlbl, hval, he, hnum⟩
  · simp [goMapGet] at hnil

/-- C2 witness: the chip c2OkChip maps the label "Vcore" to the voltage
sensor its single readable feature classifies to, and that sensor's
value 1 is the successfully read value of a subfeature. -/
theorem c2_sensor_map_entries_witness :
    goMapGet (ChipPtr.Chip c2OkChip).1.Sensors "Vcore" =
      some (some (.VoltageSensor "Vcore" 1)) ∧
    ∃ f ∈ c2OkChip.features, Feature.Label f = "Vcore" ∧
      (Feature.Sensor f).1 = some (.VoltageSensor "Vcore" 1) ∧
      (Feature.Sensor f).2 = none ∧
      ∀ v, (Sensor.VoltageSensor "Vcore" 1).numericValue = some v →
        ∃ sub ∈ f.subfeatures, sub.cerr = 0 ∧ sub.val = v :=
  ⟨by decide,
   c2_sensor_map_entries c2OkChip "Vcore" (.VoltageSensor "Vcore" 1) (by decide)⟩

/-- C4: under distinct chip identities and, per chip, distinct feature
labels (identity and label collisions overwrite entries and are a
documented limitation), the sweep returns a nil aggregate error exactly
when every feature of every chip classified without error, and in
either case the returned system maps each chip's identity to a Chip
whose sensor map contains every successfully classified sensor under
its label. -/
theorem c4_get_error_iff (chips : List ChipData)
    (hids : (chips.map ChipPtr.chipName).Nodup)
    (hlbls : ∀ c ∈ chips, (c.features.map Feature.Label).Nodup) :
    ((Get chips).2 = none ↔ ∀ c ∈ chips, ∀ f ∈ c.features, (Feature.Sensor f).2 = none) ∧
    ∀ c ∈ chips, ∀ f ∈ c.features, ∀ s, (Feature.Sensor f).1 = some s →
      ∃ ch, goMapGet (Get chips).1 (ChipPtr.chipName c) = some ch ∧
        goMapGet ch.Sensors (Feature.Label f) = some (some s) := by
  constructor
  · rw [show (Get chips).2 = collectError (chips.filterMap
      (fun c => ((ChipPtr.Chip c).2).map
        (fun e => ("chip=" ++ (ChipPtr.Chip c).1.ID, e)))) from rfl,
      collectError_eq_none, List.filterMap_eq_nil_iff]
    constructor
    · intro hall c hc f hf
      have hcz := hall c hc
      rw [Option.map_eq_none'] at hcz
      rw [show (ChipPtr.Chip c).2 = collectError (c.features.filterMap
        (fun f => ((Feature.Sensor f).2).map
          (fun e => ("feature=" ++ Feature.Label f, e)))) from rfl,
        collectError_eq_none, List.filterMap_eq_nil_iff] at hcz
      have h2 := hcz f hf
      rwa [Option.map_eq_none'] at h2
    · intro hall c hc
      rw [Option.map_eq_none']
      rw [show (ChipPtr.Chip c).2 = collectError (c.features.filterMap
        (fun f => ((Feature.Sensor f).2).map
          (fun e => ("feature=" ++ Feature.Label f, e)))) from rfl,
        collectError_eq_none, List.filterMap_eq_nil_iff]
      intro f hf
      rw [Option.map_eq_none']
      exact hall c hc f hf
  · intro c hc f hf s hs
    refine ⟨(ChipPtr.Chip c).1, ?_, ?_⟩
    · exact goMapGet_foldl_nodup (fun c => (ChipPtr.Chip c).1.ID)
        (fun c => (ChipPtr.Chip c).1) chips [] hids c hc
    · have hl := goMapGet_foldl_nodup Feature.Label (fun f => (Feature.Sensor f).1)
        c.features [] (hlbls c hc) f hf
      simp only [] at hl
      rw [hs] at hl
      exact hl

/-- C4 witness: a sweep over the single chip c4Chip, whose one feature
reads successfully, returns a nil error and a system containing that
chip's voltage sensor under its label. -/
theorem c4_get_error_iff_witness :
    ([c4Chip].map ChipPtr.chipName).Nodup ∧
    (∀ c ∈ [c4Chip], (c.features.map Feature.Label).Nodup) ∧
    (((Get [c4Chip]).2 = none ↔
        ∀ c ∈ [c4Chip], ∀ f ∈ c.features, (Feature.Sensor f).2 = none) ∧
      ∀ c ∈ [c4Chip], ∀ f ∈ c.features, ∀ s, (Feature.Sensor f).1 = some s →
        ∃ ch, goMapGet (Get [c4Chip]).1 (ChipPtr.chipName c) = some ch ∧
          goMapGet ch.Sensors (Feature.Label f) = some (some s)) :=
  ⟨by decide, by decide, c4_get_error_iff [c4Chip] (by decide) (by decide)⟩

/-- C5: for every chip whose bus type is one of the enumerated
families, the canonical identity produced by the source's formatting
(prefix, bus, address joined with dashes) equals the identity the spec
describes: lowercase family name with an instance-number suffix exactly
for I2C, SPI, HID and SCSI, and the address in hex padded to 4 digits
for ISA and PCI, 2 for I2C, unpadded otherwise. -/
theorem c5_chip_identity (c : ChipData) (h : -1 ≤ c.busType ∧ c.busType ≤ 8) :
    ChipPtr.chipName c = specChipIdentity c := by
  obtain ⟨p, t, nr, addr, ad, fs⟩ := c
  have h1 : (-1 : Int) ≤ t := h.1
  have h2 : t ≤ 8 := h.2
  interval_cases t <;> rfl

/-- C5 witness: the I2C chip c5Chip at bus number 1 and address 0x48
formats as "tmp102-i2c-1-48", matching the spec-side identity. -/
theorem c5_chip_identity_witness :
    (-1 ≤ c5Chip.busType ∧ c5Chip.busType ≤ 8) ∧
    ChipPtr.chipName c5Chip = specChipIdentity c5Chip ∧
    ChipPtr.chipName c5Chip = "tmp102-i2c-1-48" :=
  ⟨by decide, c5_chip_identity c5Chip (by decide), by decide⟩

/-- C7: a parsed chip name with a wildcard component in the claim's
sense (missing prefix, wildcard bus type, wildcard bus number for a
family that requires one, or wildcard address) makes GetChip fail with
ErrSensorWildcards, and conversely every handle GetChip returns is free
of wildcards, so single-chip lookup succeeds only for fully qualified
names. -/
theorem c7_getchip_rejects_wildcards :
    (∀ (ch : ParsedChip) (rp : String → Option String),
      (ch.prefixStr = none ∨ ch.busType = bus.ANY ∨
        (ChipPtr.hasNR ch.busType = true ∧ ch.busNr = SENSORS_BUS_NR_ANY) ∨
        ch.addr = SENSORS_CHIP_NAME_ADDR_ANY) →
      GetChip (.ok ch) rp = .error ErrSensorWildcards) ∧
    ∀ (pr : Except Int ParsedChip) (rp : String → Option String) (h : ParsedChip × String),
      GetChip pr rp = .ok h → h.1.hasWildcards = false := by
  constructor
  · intro ch rp hw
    have hwild : (if ch.hasNR then ch else { ch with busNr := 0 }).hasWildcards = true := by
      rcases hw with h | h | ⟨hn, h⟩ | h
      · by_cases hnr : ch.hasNR <;>
          simp [hnr, ParsedChip.hasWildcards, h]
      · by_cases hnr : ch.hasNR <;>
          simp [hnr, ParsedChip.hasWildcards, h, bus.ANY]
      · simp [ParsedChip.hasNR, hn, ParsedChip.hasWildcards, h, SENSORS_BUS_NR_ANY]
      · by_cases hnr : ch.hasNR <;>
          simp [hnr, ParsedChip.hasWildcards, h, SENSORS_CHIP_NAME_ADDR_ANY]
    simp [GetChip, hwild]
  · intro pr rp hh hok
    match pr with
    | .error cerr => simp [GetChip] at hok
    | .ok ch0 =>
      simp only [GetChip] at hok
      by_cases hwild : (if ch0.hasNR then ch0 else { ch0 with busNr := 0 }).hasWildcards = true
      · simp [hwild] at hok
      · simp only [hwild, if_false, ite_false, Bool.false_eq_true] at hok
        rcases hrp : rp (match (if ch0.hasNR then ch0 else
            { ch0 with busNr := 0 }).prefixStr with | none => "" | some s => s) with _ | p
        · rw [hrp] at hok
          cases hok
        · rw [hrp] at hok
          cases hok
          simpa using hwild

/-- C7 witness: the parsed name c7WildChip with a wildcard address is
rejected with ErrSensorWildcards, and a successful lookup of the fully
qualified c7FullChip yields a wildcard-free handle. -/
theorem c7_getchip_rejects_wildcards_witness :
    GetChip (.ok c7WildChip) (fun _ => none) = .error ErrSensorWildcards ∧
    (GetChip (.ok c7FullChip) (fun _ => some "/sys/class/hwmon/hwmon0") =
      .ok (c7FullChip, "/sys/class/hwmon/hwmon0") →
      (c7FullChip, "/sys/class/hwmon/hwmon0").1.hasWildcards = false) :=
  ⟨c7_getchip_rejects_wildcards.1 c7WildChip (fun _ => none)
    (Or.inr (Or.inr (Or.inr rfl))),
   c7_getchip_rejects_wildcards.2 (.ok c7FullChip)
    (fun _ => some "/sys/class/hwmon/hwmon0") (c7FullChip, "/sys/class/hwmon/hwmon0")⟩

end Lmsensors
